import Mathlib

/-!
AphexPipeline — shallow embedding and verification

A shallow embedding of the AphexPipeline stage scripts
(`pipeline-scripts/` in the repository) together with proofs about the
pipeline topology generator, the environment deployment state machine,
the build and test execution stages, and the cross-account access
resolver.

Conventions of the embedding:
* External collaborators (git, shell commands, S3, CloudFormation, STS)
  are modelled as explicit oracle inputs; observable side effects
  (role-assumption calls, environment-variable writes, stacks attempted)
  are returned as explicit traces.
* Python exceptions become `Except String` values; a `try/except`
  that converts an exception into a return value becomes a `match`.
* Logging (`print`) and filesystem scaffolding (mkdir, temp files) are
  not modelled; wall-clock durations are oracle-supplied naturals.
-/

namespace Aphex

/-! ## Configuration model (`config_parser.py`) -/

/-- Model of `StackConfig` dataclass: one CDK stack in an environment. -/
structure StackConfig where
  name : String
  path : String
deriving Repr, DecidableEq

/-- Model of `TestConfig` dataclass: optional post-deploy test commands. -/
structure TestConfig where
  commands : List String
deriving Repr, DecidableEq

/-- Model of `EnvironmentConfig` dataclass: one deployment environment.  The
source field `stacks` is spelt `stacks'` because `stacks` is reserved
by Mathlib. -/
structure EnvironmentConfig where
  name : String
  region : String
  account : String
  stacks' : List StackConfig
  tests : Option TestConfig
deriving Repr, DecidableEq

/-- Model of `BuildConfig` dataclass: build commands. -/
structure BuildConfig where
  commands : List String
deriving Repr, DecidableEq

/-- Model of `AphexConfig` dataclass: the whole validated configuration. -/
structure AphexConfig where
  version : String
  build : BuildConfig
  environments : List EnvironmentConfig
deriving Repr, DecidableEq

/-! ## Workflow topology generator (`pipeline_deployment_stage.py`)

`PipelineDeploymentStage._build_workflow_template` builds a nested dict
that is dumped to YAML.  We model the dict as a typed tree: each entry of
the `steps` list of the `main` template is a list (step group) of
`StepNode`s carrying the `name`, `template` and `arguments.parameters`
fields exactly as constructed in the source; the stage templates
(`_generate_build_stage` etc.) are modelled by `StageTemplate`, keeping
every configuration-dependent field (the constant literal scaffolding of
the embedded bash scripts is kept as the list of configuration-derived
command lines).  Argo `{{...}}` placeholders appear verbatim in strings
(braces written with hex escapes). -/

/-- One entry of a step group in the `main` template:
`{"name": ..., "template": ..., "arguments": {"parameters": [...]}}`. -/
structure StepNode where
  name : String
  template : String
  parameters : List (String × String)
deriving Repr, DecidableEq

/-- The `steps` entry for the build stage (lines 327):
`{"name": "build", "template": "build", "arguments": build_stage["arguments"]}`. -/
def buildStepNode : StepNode :=
  { name := "build"
    template := "build"
    parameters :=
      [("commit-sha", "\x7b\x7bworkflow.parameters.commit-sha\x7d\x7d"),
       ("repo-url", "\x7b\x7bworkflow.parameters.repo-url\x7d\x7d")] }

/-- The `steps` entry for the pipeline-deployment stage (line 328). -/
def pipelineStepNode : StepNode :=
  { name := "pipeline-deployment"
    template := "pipeline-deployment"
    parameters :=
      [("commit-sha", "\x7b\x7bworkflow.parameters.commit-sha\x7d\x7d"),
       ("repo-url", "\x7b\x7bworkflow.parameters.repo-url\x7d\x7d")] }

/-- The `env_step` dict built for one environment (lines 333-343). -/
def deployStepNode (env : EnvironmentConfig) : StepNode :=
  { name := "deploy-" ++ env.name
    template := "deploy-" ++ env.name
    parameters :=
      [("commit-sha", "\x7b\x7bworkflow.parameters.commit-sha\x7d\x7d"),
       ("repo-url", "\x7b\x7bworkflow.parameters.repo-url\x7d\x7d"),
       ("artifact-path", "\x7b\x7bsteps.build.outputs.parameters.artifact-path\x7d\x7d")] }

/-- The `test_step` dict built for one environment (lines 347-357). -/
def testStepNode (env : EnvironmentConfig) : StepNode :=
  { name := "test-" ++ env.name
    template := "test-" ++ env.name
    parameters :=
      [("commit-sha", "\x7b\x7bworkflow.parameters.commit-sha\x7d\x7d"),
       ("repo-url", "\x7b\x7bworkflow.parameters.repo-url\x7d\x7d"),
       ("stack-outputs",
        "\x7b\x7bsteps.deploy-" ++ env.name ++ ".outputs.parameters.stack-outputs\x7d\x7d")] }

/-- The body of the per-environment loop of `_build_workflow_template`
(lines 332-358): append one deploy group and, when `env.tests` is
truthy, one test group. -/
def mainStepsAcc (steps : List (List StepNode)) (env : EnvironmentConfig) :
    List (List StepNode) :=
  let steps := steps ++ [[deployStepNode env]]
  if env.tests.isSome then steps ++ [[testStepNode env]] else steps

/-- The `steps` list of the `main` template (lines 326-358): the build
group, the pipeline-deployment group, then the per-environment loop.
The Python `for`/`append` loop is mirrored by a `foldl`. -/
def mainSteps (config : AphexConfig) : List (List StepNode) :=
  config.environments.foldl mainStepsAcc [[buildStepNode], [pipelineStepNode]]

/-- One stage template dict (`_generate_build_stage`,
`_generate_pipeline_deployment_stage`, `_generate_environment_stage`,
`_generate_test_stage`): all configuration-dependent fields are kept.
`scriptCommands` holds the configuration-derived lines spliced into the
container script (build commands, stack names, or test commands). -/
structure StageTemplate where
  name : String
  inputParams : List String
  outputValueParams : List (String × String)
  outputFileParams : List (String × String)
  image : String
  scriptCommands : List String
  envVars : List (String × String)
deriving Repr, DecidableEq

/-- Model of `_generate_build_stage` (lines 392-447). -/
def generateBuildStage (config : AphexConfig) (artifactBucket : String) : StageTemplate :=
  { name := "build"
    inputParams := ["commit-sha", "repo-url"]
    outputValueParams :=
      [("artifact-path",
        "s3://" ++ artifactBucket ++ "/\x7b\x7binputs.parameters.commit-sha\x7d\x7d/")]
    outputFileParams := []
    image := "aphex-pipeline/builder:latest"
    scriptCommands := config.build.commands
    envVars := [("ARTIFACT_BUCKET", artifactBucket)] }

/-- Model of `_generate_pipeline_deployment_stage` (lines 449-498): fully constant. -/
def generatePipelineDeploymentStage : StageTemplate :=
  { name := "pipeline-deployment"
    inputParams := ["commit-sha", "repo-url"]
    outputValueParams := []
    outputFileParams := []
    image := "aphex-pipeline/deployer:latest"
    scriptCommands := []
    envVars := [] }

/-- Model of `_generate_environment_stage` (lines 500-575): the per-stack
synth/deploy/describe script lines are derived from the stack names. -/
def generateEnvironmentStage (env : EnvironmentConfig) : StageTemplate :=
  { name := "deploy-" ++ env.name
    inputParams := ["commit-sha", "repo-url", "artifact-path"]
    outputValueParams := []
    outputFileParams := [("stack-outputs", "/tmp/stack-outputs.json")]
    image := "aphex-pipeline/deployer:latest"
    scriptCommands := env.stacks'.map (fun s => s.name)
    envVars := [("AWS_REGION", env.region), ("AWS_ACCOUNT", env.account)] }

/-- Model of `_generate_test_stage` (lines 577-616); only called when `env.tests`
is truthy, so the commands default to `[]` is never observable. -/
def generateTestStage (env : EnvironmentConfig) : StageTemplate :=
  { name := "test-" ++ env.name
    inputParams := ["commit-sha", "repo-url", "stack-outputs"]
    outputValueParams := []
    outputFileParams := []
    image := "aphex-pipeline/deployer:latest"
    scriptCommands := (env.tests.map (fun t => t.commands)).getD []
    envVars := [("AWS_REGION", env.region),
                ("STACK_OUTPUTS", "\x7b\x7binputs.parameters.stack-outputs\x7d\x7d")] }

/-- The complete WorkflowTemplate manifest (lines 361-388), as a typed
tree.  The `main` template's `steps` are `mainSteps`; the remaining
templates are the build, pipeline and per-environment stage templates in
the order the source appends them. -/
structure WorkflowTemplate where
  apiVersion : String
  kind : String
  metadataName : String
  metadataNamespace : String
  serviceAccountName : String
  entrypoint : String
  workflowParams : List String
  steps : List (List StepNode)
  stageTemplates : List StageTemplate
deriving Repr, DecidableEq

/-- Model of `_build_workflow_template` (lines 310-390).  The `env_stages` list
(lines 319-323: deploy template plus test template iff `env.tests`) is
mirrored by a `foldl` over the environments. -/
def buildWorkflowTemplate (config : AphexConfig) (artifactBucket : String) :
    WorkflowTemplate :=
  let envStages :=
    config.environments.foldl
      (fun acc env =>
        let acc := acc ++ [generateEnvironmentStage env]
        if env.tests.isSome then acc ++ [generateTestStage env] else acc)
      []
  { apiVersion := "argoproj.io/v1alpha1"
    kind := "WorkflowTemplate"
    metadataName := "aphex-pipeline-template"
    metadataNamespace := "argo"
    serviceAccountName := "workflow-executor"
    entrypoint := "main"
    workflowParams := ["commit-sha", "branch", "repo-url"]
    steps := mainSteps config
    stageTemplates :=
      [generateBuildStage config artifactBucket, generatePipelineDeploymentStage]
        ++ envStages }

/-! ## Artifact bucket lookup and `generate_workflow_template`

`generate_workflow_template` (lines 249-283) first calls
`_get_artifact_bucket_name` (lines 285-308), which performs a boto3
CloudFormation `describe_stacks('AphexPipelineStack')` call and scans its
outputs for `ArtifactBucketName`.  The external CloudFormation service is
modelled as an oracle, and every call made to it is returned as an
explicit trace so that side effects are observable. -/

/-- An external call made by the pipeline deployment stage. -/
inductive ExternalCall where
  | describeStacks (stackName : String)
deriving Repr, DecidableEq

/-- Response of the CloudFormation `describe_stacks` collaborator:
either a client error or a (possibly empty) list of stacks, each with
its `Outputs` key/value list. -/
inductive CfnDescribeResponse where
  | clientError (msg : String)
  | ok (stackOutputs : List (List (String × String)))
deriving Repr, DecidableEq

/-- The CloudFormation collaborator: stack name queried → response. -/
def CfnWorld : Type := String → CfnDescribeResponse

/-- Scan a CloudFormation `Outputs` list for a key, returning its value
(the `for output in outputs: if output['OutputKey'] == ...` loop). -/
def findOutputValue (key : String) : List (String × String) → Option String
  | [] => none
  | (k, v) :: rest => if k = key then some v else findOutputValue key rest

/-- Model of `_get_artifact_bucket_name` (lines 285-308), with its call trace. -/
def getArtifactBucketName (cfn : CfnWorld) :
    Except String String × List ExternalCall :=
  let calls := [ExternalCall.describeStacks "AphexPipelineStack"]
  match cfn "AphexPipelineStack" with
  | .clientError msg =>
      (.error ("Failed to get artifact bucket name: " ++ msg), calls)
  | .ok [] => (.error "AphexPipelineStack not found", calls)
  | .ok (outputs :: _) =>
      match findOutputValue "ArtifactBucketName" outputs with
      | some v => (.ok v, calls)
      | none =>
          (.error "ArtifactBucketName output not found in AphexPipelineStack", calls)

/-- Model of `generate_workflow_template` (lines 249-283): errors when the
configuration has not been loaded, otherwise resolves the artifact
bucket internally and builds the template.  (YAML serialization with
`sort_keys=False` preserves the constructed structure and is not
modelled separately.) -/
def generateWorkflowTemplate (config : Option AphexConfig) (cfn : CfnWorld) :
    Except String WorkflowTemplate × List ExternalCall :=
  match config with
  | none => (.error "Configuration not loaded. Call read_configuration() first.", [])
  | some c =>
      match getArtifactBucketName cfn with
      | (.ok bucket, calls) => (.ok (buildWorkflowTemplate c bucket), calls)
      | (.error msg, calls) =>
          (.error ("Failed to generate WorkflowTemplate: " ++ msg), calls)

/-! ## Cross-account access resolver (`environment_deployment_stage.py`)

`assume_cross_account_role` (lines 44-94) and
`EnvironmentDeploymentStage.detect_and_assume_cross_account_role`
(lines 299-344).  The STS collaborator is an oracle from (role ARN,
session name) to a response; the calls actually made and the credential
environment variables actually set are returned as explicit traces. -/

/-- Temporary credentials returned by `assume_role`. -/
structure Credentials where
  accessKeyId : String
  secretAccessKey : String
  sessionToken : String
deriving Repr, DecidableEq

/-- Response of the STS `assume_role` collaborator. -/
inductive StsResponse where
  | ok (creds : Credentials)
  | clientError (code msg : String)
deriving Repr, DecidableEq

/-- The STS collaborator: (role ARN, session name) → response. -/
def StsWorld : Type := String → String → StsResponse

/-- Model of `assume_cross_account_role` (lines 44-94): builds the role ARN,
makes exactly one `assume_role` call and returns the credentials, or an
error carrying the provider error code and message.  The second
component is the list of role-assumption calls made. -/
def assumeCrossAccountRole (targetAccount roleName sessionName : String)
    (sts : StsWorld) : Except String Credentials × List (String × String) :=
  let roleArn := "arn:aws:iam::" ++ targetAccount ++ ":role/" ++ roleName
  match sts roleArn sessionName with
  | .ok creds => (.ok creds, [(roleArn, sessionName)])
  | .clientError code msg =>
      (.error ("Failed to assume cross-account role " ++ roleArn ++ ": "
                ++ code ++ " - " ++ msg),
       [(roleArn, sessionName)])

/-- Outcome of `detect_and_assume_cross_account_role`: the credentials
stored in `self.assumed_credentials` (if any) and the credential
environment variables set. -/
structure CrossAccountOutcome where
  assumedCredentials : Option Credentials
  envVarsSet : List (String × String)
deriving Repr, DecidableEq

/-- Model of `detect_and_assume_cross_account_role` (lines 299-344): compares the
current account with the target environment account; when they differ it
assumes the cross-account role with session name
`AphexPipeline-<env.name>` and sets the three credential environment
variables; when they are equal it does nothing.  Second component: the
role-assumption calls made. -/
def detectAndAssumeCrossAccountRole (currentAccount : String)
    (env : EnvironmentConfig) (roleName : String) (sts : StsWorld) :
    Except String CrossAccountOutcome × List (String × String) :=
  if currentAccount ≠ env.account then
    match assumeCrossAccountRole env.account roleName
        ("AphexPipeline-" ++ env.name) sts with
    | (.ok creds, calls) =>
        (.ok { assumedCredentials := some creds
               envVarsSet :=
                 [("AWS_ACCESS_KEY_ID", creds.accessKeyId),
                  ("AWS_SECRET_ACCESS_KEY", creds.secretAccessKey),
                  ("AWS_SESSION_TOKEN", creds.sessionToken)] },
         calls)
    | (.error msg, calls) => (.error msg, calls)
  else
    (.ok { assumedCredentials := none, envVarsSet := [] }, [])

/-! ## Stack deployment and output capture -/

/-- A CloudFormation stack output (`StackOutput` dataclass, lines 102-108). -/
structure StackOutput where
  output_key : String
  output_value : String
  description : Option String
  export_name : Option String
deriving Repr, DecidableEq

/-- Model of `StackDeploymentResult` dataclass (lines 111-117). -/
structure StackDeploymentResult where
  stack_name : String
  status : String
  outputs : List StackOutput
  error_message : Option String
deriving Repr, DecidableEq

/-- Model of `EnvironmentDeploymentResult` dataclass (lines 120-128).  Note that
it has no error-message field of its own. -/
structure EnvironmentDeploymentResult where
  environment_name : String
  region : String
  account : String
  commit_sha : String
  stack_results : List StackDeploymentResult
  status : String
deriving Repr, DecidableEq

/-- What the CloudFormation `describe_stacks` call inside
`capture_stack_outputs` can produce, including the exception classes the
source catches. -/
inductive CaptureResponse where
  | found (outputs : List StackOutput)
  | stacksEmpty
  | noOutputs
  | validationError
  | otherClientError (msg : String)
  | otherException (msg : String)
deriving Repr, DecidableEq

/-- Model of `capture_stack_outputs` (lines 576-634): every error branch —
missing stack, empty outputs, `ValidationError`, any other
`ClientError`, any other exception — is converted into the empty output
list; only a successful describe with outputs yields them. -/
def captureStackOutputs (resp : CaptureResponse) : List StackOutput :=
  match resp with
  | .found outputs => outputs
  | .stacksEmpty => []
  | .noOutputs => []
  | .validationError => []
  | .otherClientError _ => []
  | .otherException _ => []

/-- The external world of one environment deployment: per-step oracles
for the collaborators the stage calls. -/
structure EnvDeployWorld where
  cloneError : Option String
  downloadError : Option String
  currentAccount : String
  sts : StsWorld
  synthError : StackConfig → Option String
  deployError : StackConfig → Option String
  captureResp : String → CaptureResponse

/-- Model of `deploy_cdk_stack` (lines 454-541): a successful `cdk deploy` yields
a `success` result whose outputs come from `capture_stack_outputs`; a
`CalledProcessError` (nonzero exit) or any other exception yields a
`failed` result with empty outputs and the error message — it does not
raise. -/
def deployCdkStack (w : EnvDeployWorld) (stack : StackConfig) :
    StackDeploymentResult :=
  match w.deployError stack with
  | none =>
      { stack_name := stack.name
        status := "success"
        outputs := captureStackOutputs (w.captureResp stack.name)
        error_message := none }
  | some msg =>
      { stack_name := stack.name
        status := "failed"
        outputs := []
        error_message := some ("CDK deployment failed for stack "
                                ++ stack.name ++ "\n" ++ msg) }

/-- The loop body of `deploy_stacks_in_order` (lines 543-574): deploy
each stack in order, appending to a local `results` list; on the first
`failed` result raise `EnvironmentDeploymentError` — which discards the
local list.  The second component is the trace of stacks actually
attempted. -/
def deployLoop (w : EnvDeployWorld) :
    List StackConfig → List StackDeploymentResult →
    Except String (List StackDeploymentResult) × List String
  | [], acc => (.ok acc, [])
  | stack :: rest, acc =>
      let r := deployCdkStack w stack
      if r.status = "failed" then
        (.error ("Stack deployment failed: " ++ stack.name
                  ++ ". Halting deployment."),
         [stack.name])
      else
        let (res, attempted) := deployLoop w rest (acc ++ [r])
        (res, stack.name :: attempted)

/-- Model of `deploy_stacks_in_order` (lines 543-574). -/
def deployStacksInOrder (w : EnvDeployWorld) (stacks' : List StackConfig) :
    Except String (List StackDeploymentResult) × List String :=
  deployLoop w stacks' []

/-- Model of `synthesize_all_stacks` (lines 436-452): synthesize every stack in
order, raising on the first synthesis failure. -/
def synthesizeAllStacks (w : EnvDeployWorld) :
    List StackConfig → Option String
  | [] => none
  | stack :: rest =>
      match w.synthError stack with
      | some msg =>
          some ("CDK synthesis failed for stack " ++ stack.name ++ "\n" ++ msg)
      | none => synthesizeAllStacks w rest

/-- Model of `EnvironmentDeploymentStage.run` (lines 747-818).  Steps 1-7 in
order: clone, artifact download (when an artifact path is given),
cross-account detection, AWS context (environment variables only, not
modelled), just-in-time synthesis of all stacks, ordered deployment,
output save.  Any `EnvironmentDeploymentError` raised by a step is
caught and converted into a result with `status="failed"` and
`stack_results = self.stack_results` — which is still the empty list
from `__init__`, because the assignment in step 6 only happens when
`deploy_stacks_in_order` returns instead of raising.  The second
component is the trace of stacks on which a deploy was attempted. -/
def envRun (commitSha : String) (env : EnvironmentConfig)
    (artifactPath : Option String) (roleName : String)
    (w : EnvDeployWorld) : EnvironmentDeploymentResult × List String :=
  let failedResult : EnvironmentDeploymentResult :=
    { environment_name := env.name
      region := env.region
      account := env.account
      commit_sha := commitSha
      stack_results := []
      status := "failed" }
  match w.cloneError with
  | some _ => (failedResult, [])
  | none =>
    match (if artifactPath.isSome then w.downloadError else none) with
    | some _ => (failedResult, [])
    | none =>
      match detectAndAssumeCrossAccountRole w.currentAccount env roleName w.sts with
      | (.error _, _) => (failedResult, [])
      | (.ok _, _) =>
        match synthesizeAllStacks w env.stacks' with
        | some _ => (failedResult, [])
        | none =>
          match deployStacksInOrder w env.stacks' with
          | (.error _, attempted) => (failedResult, attempted)
          | (.ok results, attempted) =>
              ({ environment_name := env.name
                 region := env.region
                 account := env.account
                 commit_sha := commitSha
                 stack_results := results
                 status := "success" },
               attempted)

/-! ## Test execution stage (`test_execution_stage.py`)

`TestExecutionStage` executes every test command, records each result,
persists the aggregated result document, and only then raises when some
command failed.  Shell execution is an oracle indexed by command
position; wall-clock durations are oracle-supplied naturals. -/

/-- Model of `TestCommandResult` dataclass (lines 26-34). -/
structure TestCommandResult where
  command : String
  exit_code : Int
  stdout : String
  stderr : String
  status : String
  duration_seconds : Nat
deriving Repr, DecidableEq

/-- Model of `TestExecutionResult` dataclass (lines 37-45). -/
structure TestExecutionResult where
  environment_name : String
  commit_sha : String
  timestamp : String
  test_results : List TestCommandResult
  overall_status : String
  total_duration_seconds : Nat
deriving Repr, DecidableEq

/-- What `subprocess.run` can do for one test command: complete with an
exit code and captured streams, exceed the timeout, or raise. -/
inductive CommandOutcome where
  | completed (exitCode : Int) (stdout stderr : String) (duration : Nat)
  | timedOut (partialStdout : String) (duration : Nat)
  | execError (msg : String) (duration : Nat)
deriving Repr, DecidableEq

/-- The shell collaborator for a stage: command position → outcome. -/
def ShellWorld : Type := Nat → CommandOutcome

/-- Model of `execute_test_command` (lines 74-155): a completed command is
`passed` iff its exit code is zero; a timeout or execution exception is
recorded as `failed` with the synthetic exit marker `-1`. -/
def executeTestCommand (command : String) (outcome : CommandOutcome) :
    TestCommandResult :=
  match outcome with
  | .completed exitCode stdout stderr duration =>
      { command := command
        exit_code := exitCode
        stdout := stdout
        stderr := stderr
        status := if exitCode = 0 then "passed" else "failed"
        duration_seconds := duration }
  | .timedOut partialStdout duration =>
      { command := command
        exit_code := -1
        stdout := partialStdout
        stderr := "Test command timed out after " ++ toString duration ++ " seconds"
        status := "failed"
        duration_seconds := duration }
  | .execError msg duration =>
      { command := command
        exit_code := -1
        stdout := ""
        stderr := "Failed to execute test command: " ++ msg
        status := "failed"
        duration_seconds := duration }

/-- The loop of `execute_all_tests` (lines 157-183), carrying the
position of the current command: every command is executed and its
result appended, regardless of earlier failures. -/
def executeTestsFrom (w : ShellWorld) : Nat → List String → List TestCommandResult
  | _, [] => []
  | i, command :: rest =>
      executeTestCommand command (w i) :: executeTestsFrom w (i + 1) rest

/-- Model of `execute_all_tests` (lines 157-183): the empty command list yields
the empty result list at once. -/
def executeAllTests (testCommands : List String) (w : ShellWorld) :
    List TestCommandResult :=
  match testCommands with
  | [] => []
  | _ => executeTestsFrom w 0 testCommands

/-- The aggregation loop of `save_test_results` (lines 193-200):
`overall_status` starts `passed` and flips to `failed` on any failed
result; `total_duration` sums the durations. -/
def aggregateResults : List TestCommandResult → String × Nat
  | [] => ("passed", 0)
  | r :: rest =>
      let (status, total) := aggregateResults rest
      (if r.status = "failed" then "failed" else status,
       r.duration_seconds + total)

/-- Model of `save_test_results` (lines 185-224): the persisted result document. -/
def saveTestResults (environmentName commitSha timestamp : String)
    (results : List TestCommandResult) : TestExecutionResult :=
  { environment_name := environmentName
    commit_sha := commitSha
    timestamp := timestamp
    test_results := results
    overall_status := (aggregateResults results).1
    total_duration_seconds := (aggregateResults results).2 }

/-- Model of `TestExecutionStage.run` (lines 286-338): execute all tests, persist
the result document, then raise `TestExecutionError` iff some test
failed, otherwise return a result with `overall_status = "passed"`.
The first component is the persisted document, the second the run
outcome.  (Failures of the result-file write itself are not modelled.) -/
def testRun (testCommands : List String)
    (environmentName commitSha timestamp : String) (w : ShellWorld) :
    TestExecutionResult × Except String TestExecutionResult :=
  let results := executeAllTests testCommands w
  let savedDoc := saveTestResults environmentName commitSha timestamp results
  let failedCount := (results.filter (fun r => r.status = "failed")).length
  if failedCount ≠ 0 then
    (savedDoc, .error (toString failedCount ++ " test(s) failed"))
  else
    (savedDoc,
     .ok { environment_name := environmentName
           commit_sha := commitSha
           timestamp := timestamp
           test_results := results
           overall_status := "passed"
           total_duration_seconds := (aggregateResults results).2 })

/-! ## Build stage (`build_stage.py`)

`BuildStage` clones, runs the build commands halting on the first
nonzero exit, packages and optionally uploads artifacts, and persists an
`ArtifactMetadata` document — also on failure. -/

/-- Model of `ArtifactMetadata` dataclass (lines 25-33). -/
structure ArtifactMetadata where
  commit_sha : String
  timestamp : String
  artifact_path : String
  build_commands : List String
  status : String
  error_message : Option String
deriving Repr, DecidableEq

/-- The external world of one build stage run. -/
structure BuildWorld where
  cloneError : Option String
  cmdResult : Nat → Int × String × String
  uploadError : Option String

/-- The loop of `execute_build_commands` (lines 128-171): commands run
in order with `check=True`, so the first nonzero exit raises
`BuildStageError`; the second component is the list of commands actually
executed. -/
def buildCommandsFrom (w : BuildWorld) :
    Nat → List String → Except String Unit × List String
  | _, [] => (.ok (), [])
  | i, command :: rest =>
      let (exitCode, stdout, stderr) := w.cmdResult i
      if exitCode ≠ 0 then
        (.error ("Build command failed: " ++ command
                  ++ "\nExit code: " ++ toString exitCode
                  ++ "\nStdout: " ++ stdout ++ "\nStderr: " ++ stderr),
         [command])
      else
        let (res, executed) := buildCommandsFrom w (i + 1) rest
        (res, command :: executed)

/-- Model of `execute_build_commands` (lines 128-171): the empty command list
returns at once with nothing executed. -/
def executeBuildCommands (buildCommands : List String) (w : BuildWorld) :
    Except String Unit × List String :=
  match buildCommands with
  | [] => (.ok (), [])
  | _ => buildCommandsFrom w 0 buildCommands

/-- Model of `create_artifact_metadata` (lines 191-209). -/
def createArtifactMetadata (commitSha timestamp artifactsDir : String)
    (buildCommands : List String) (status : String)
    (errorMessage : Option String) : ArtifactMetadata :=
  { commit_sha := commitSha
    timestamp := timestamp
    artifact_path := artifactsDir
    build_commands := buildCommands
    status := status
    error_message := errorMessage }

/-- Model of `BuildStage.run` (lines 323-378): clone, build commands, packaging
(a warning-only step), optional S3 upload, then metadata creation and
save.  On `BuildStageError` the failure metadata (status `failed`,
error message) is still created and saved before the error is re-raised.
First component: the run outcome; second: the persisted metadata
document.  (Failures of the metadata write itself are not modelled.) -/
def buildRun (commitSha timestamp artifactsDir : String)
    (buildCommands : List String) (s3Bucket : Option String)
    (w : BuildWorld) : Except String ArtifactMetadata × Option ArtifactMetadata :=
  let failWith := fun (msg : String) =>
    let md := createArtifactMetadata commitSha timestamp artifactsDir
                buildCommands "failed" (some msg)
    ((.error msg : Except String ArtifactMetadata), some md)
  match w.cloneError with
  | some msg => failWith ("Failed to clone repository: " ++ msg)
  | none =>
    match executeBuildCommands buildCommands w with
    | (.error msg, _) => failWith msg
    | (.ok (), _) =>
      match (if s3Bucket.isSome then w.uploadError else none) with
      | some msg => failWith ("S3 upload failed: " ++ msg)
      | none =>
          let md := createArtifactMetadata commitSha timestamp artifactsDir
                      buildCommands "success" none
          (.ok md, some md)

/-! ## Pipeline deployment stage run (`pipeline_deployment_stage.py`)

`PipelineDeploymentStage.run` (lines 660-705): clone, then synthesize
and deploy the pipeline stack — both non-fatal when `continue_on_error`
is set — then read the configuration, generate the workflow template and
apply it.  The stage produces no result document of any kind: its only
outcomes are normal return or a raised `PipelineDeploymentError`. -/

/-- The external world of one pipeline deployment stage run. -/
structure PipelineWorld where
  cloneError : Option String
  synthError : Option String
  deployError : Option String
  configResult : Except String AphexConfig
  cfn : CfnWorld
  applyError : Option String

/-- Model of `PipelineDeploymentStage.run` (lines 660-705). -/
def pipelineRun (w : PipelineWorld) (continueOnError : Bool) :
    Except String Unit :=
  match w.cloneError with
  | some msg => .error ("Failed to clone repository: " ++ msg)
  | none =>
    match (if continueOnError then none else w.synthError) with
    | some msg => .error ("CDK synthesis failed\n" ++ msg)
    | none =>
      match (if continueOnError then none else w.deployError) with
      | some msg => .error ("CDK deployment failed\n" ++ msg)
      | none =>
        match w.configResult with
        | .error msg => .error ("Failed to read configuration: " ++ msg)
        | .ok config =>
          match generateWorkflowTemplate (some config) w.cfn with
          | (.error msg, _) => .error msg
          | (.ok _, _) =>
            match w.applyError with
            | some msg => .error ("kubectl apply failed\n" ++ msg)
            | none => .ok ()

/-! ## Node classifiers and structural lemmas for the topology

Spec-side classifiers: the spec names the generated nodes `build`,
`pipeline-deployment`, `deploy-<env.name>` and `test-<env.name>`, so a
node is classified by its `name` field. -/

/-- A node is a Build node when it is named `build`. -/
def isBuildNode (n : StepNode) : Bool := n.name == "build"

/-- A node is a Pipeline-Deployment node when it is named
`pipeline-deployment`. -/
def isPipelineNode (n : StepNode) : Bool := n.name == "pipeline-deployment"

/-- A node is a Deploy node when its name starts with `deploy-`. -/
def isDeployNode (n : StepNode) : Bool := "deploy-".data.isPrefixOf n.name.data

/-- A node is a Test node when its name starts with `test-`. -/
def isTestNode (n : StepNode) : Bool := "test-".data.isPrefixOf n.name.data

/-- A list is a prefix of itself extended by anything. -/
lemma isPrefixOf_append_self (xs ys : List Char) :
    xs.isPrefixOf (xs ++ ys) = true := by
  induction xs with
  | nil => simp [List.isPrefixOf]
  | cons c cs ih => simp [List.isPrefixOf]

/-- Lists with distinct heads: no prefix relation. -/
lemma isPrefixOf_cons_ne (c d : Char) (h : c ≠ d) (xs ys : List Char) :
    (c :: xs).isPrefixOf (d :: ys) = false := by
  simp [List.isPrefixOf, h]

/-- Appending cannot turn a string with one head character into one with
a different head character. -/
lemma append_ne_of_head (p q : String) (c d : Char) (cs ds : List Char)
    (hp : p.data = c :: cs) (hq : q.data = d :: ds) (hcd : c ≠ d)
    (s : String) : p ++ s ≠ q := by
  intro h
  have h2 := congrArg String.data h
  rw [String.data_append, hp, hq] at h2
  exact hcd (List.head_eq_of_cons_eq h2)

lemma deployName_head (s : String) :
    ("deploy-" ++ s).data = 'd' :: "eploy-".data ++ s.data := by
  rw [String.data_append]

lemma testName_head (s : String) :
    ("test-" ++ s).data = 't' :: "est-".data ++ s.data := by
  rw [String.data_append]

/-- The deploy node of an environment is a Deploy node. -/
lemma isDeployNode_deployStepNode (env : EnvironmentConfig) :
    isDeployNode (deployStepNode env) = true := by
  show ("deploy-".data.isPrefixOf ("deploy-" ++ env.name).data) = true
  rw [String.data_append]
  exact isPrefixOf_append_self _ _

/-- The test node of an environment is not a Deploy node. -/
lemma not_isDeployNode_testStepNode (env : EnvironmentConfig) :
    isDeployNode (testStepNode env) = false := by
  show ("deploy-".data.isPrefixOf ("test-" ++ env.name).data) = false
  rw [testName_head]
  exact isPrefixOf_cons_ne 'd' 't' (by decide) _ _

/-- The test node of an environment is a Test node. -/
lemma isTestNode_testStepNode (env : EnvironmentConfig) :
    isTestNode (testStepNode env) = true := by
  show ("test-".data.isPrefixOf ("test-" ++ env.name).data) = true
  rw [String.data_append]
  exact isPrefixOf_append_self _ _

/-- The deploy node of an environment is not a Test node. -/
lemma not_isTestNode_deployStepNode (env : EnvironmentConfig) :
    isTestNode (deployStepNode env) = false := by
  show ("test-".data.isPrefixOf ("deploy-" ++ env.name).data) = false
  rw [deployName_head]
  exact isPrefixOf_cons_ne 't' 'd' (by decide) _ _

/-- Deploy nodes are never named `build`. -/
lemma not_isBuildNode_deployStepNode (env : EnvironmentConfig) :
    isBuildNode (deployStepNode env) = false := by
  show (("deploy-" ++ env.name) == "build") = false
  rw [beq_eq_false_iff_ne]
  exact append_ne_of_head _ _ 'd' 'b' _ _ rfl rfl (by decide) _

/-- Test nodes are never named `build`. -/
lemma not_isBuildNode_testStepNode (env : EnvironmentConfig) :
    isBuildNode (testStepNode env) = false := by
  show (("test-" ++ env.name) == "build") = false
  rw [beq_eq_false_iff_ne]
  exact append_ne_of_head _ _ 't' 'b' _ _ rfl rfl (by decide) _

/-- Deploy nodes are never named `pipeline-deployment`. -/
lemma not_isPipelineNode_deployStepNode (env : EnvironmentConfig) :
    isPipelineNode (deployStepNode env) = false := by
  show (("deploy-" ++ env.name) == "pipeline-deployment") = false
  rw [beq_eq_false_iff_ne]
  exact append_ne_of_head _ _ 'd' 'p' _ _ rfl rfl (by decide) _

/-- Test nodes are never named `pipeline-deployment`. -/
lemma not_isPipelineNode_testStepNode (env : EnvironmentConfig) :
    isPipelineNode (testStepNode env) = false := by
  show (("test-" ++ env.name) == "pipeline-deployment") = false
  rw [beq_eq_false_iff_ne]
  exact append_ne_of_head _ _ 't' 'p' _ _ rfl rfl (by decide) _

/-- Declarative form of the per-environment step groups: one deploy
group per environment in order, followed by a test group iff the
environment declares tests. -/
def envGroups : List EnvironmentConfig → List (List StepNode)
  | [] => []
  | env :: rest =>
      [deployStepNode env] ::
        (if env.tests.isSome then [testStepNode env] :: envGroups rest
         else envGroups rest)

/-- The `foldl` loop of `mainSteps` appends exactly `envGroups`. -/
lemma mainSteps_foldl_eq (envs : List EnvironmentConfig)
    (init : List (List StepNode)) :
    envs.foldl mainStepsAcc init = init ++ envGroups envs := by
  induction envs generalizing init with
  | nil => simp [envGroups]
  | cons env rest ih =>
      rw [List.foldl_cons, ih]
      cases h : env.tests.isSome <;> simp [mainStepsAcc, envGroups, h]

/-- Structure of the generated `main` steps: the build group, the
pipeline-deployment group, then the per-environment groups. -/
lemma mainSteps_eq (config : AphexConfig) :
    mainSteps config
      = [[buildStepNode], [pipelineStepNode]] ++ envGroups config.environments := by
  unfold mainSteps
  exact mainSteps_foldl_eq config.environments _

lemma isBuildNode_buildStepNode : isBuildNode buildStepNode = true := rfl

lemma isBuildNode_pipelineStepNode : isBuildNode pipelineStepNode = false := rfl

lemma isPipelineNode_buildStepNode : isPipelineNode buildStepNode = false := rfl

lemma isPipelineNode_pipelineStepNode : isPipelineNode pipelineStepNode = true := rfl

lemma isDeployNode_buildStepNode : isDeployNode buildStepNode = false := rfl

lemma isDeployNode_pipelineStepNode : isDeployNode pipelineStepNode = false := rfl

lemma isTestNode_buildStepNode : isTestNode buildStepNode = false := rfl

lemma isTestNode_pipelineStepNode : isTestNode pipelineStepNode = false := rfl

lemma deployStepNode_name (env : EnvironmentConfig) :
    (deployStepNode env).name = "deploy-" ++ env.name := rfl

lemma testStepNode_name (env : EnvironmentConfig) :
    (testStepNode env).name = "test-" ++ env.name := rfl

/-- The per-environment nodes, flattened: one deploy node per
environment in order, each followed by a test node iff tests. -/
def nodesOf : List EnvironmentConfig → List StepNode
  | [] => []
  | env :: rest =>
      deployStepNode env ::
        (if env.tests.isSome then testStepNode env :: nodesOf rest
         else nodesOf rest)

lemma envGroups_flatten (envs : List EnvironmentConfig) :
    (envGroups envs).flatten = nodesOf envs := by
  induction envs with
  | nil => simp [envGroups, nodesOf]
  | cons env rest ih =>
      cases h : env.tests.isSome <;> simp [envGroups, nodesOf, h, ih]

/-- The Deploy nodes among the per-environment nodes are exactly one per
environment, named `deploy-<env.name>`, in configuration order. -/
lemma nodesOf_filter_deploy (envs : List EnvironmentConfig) :
    ((nodesOf envs).filter isDeployNode).map (fun n => n.name)
      = envs.map (fun e => "deploy-" ++ e.name) := by
  induction envs with
  | nil => simp [nodesOf]
  | cons env rest ih =>
      cases h : env.tests.isSome <;>
        simp [nodesOf, h, List.filter_cons, isDeployNode_deployStepNode,
              not_isDeployNode_testStepNode, deployStepNode_name, ih]

/-- The Test nodes among the per-environment nodes are exactly one per
environment with tests, named `test-<env.name>`, in configuration
order. -/
lemma nodesOf_filter_test (envs : List EnvironmentConfig) :
    ((nodesOf envs).filter isTestNode).map (fun n => n.name)
      = (envs.filter (fun e => e.tests.isSome)).map (fun e => "test-" ++ e.name) := by
  induction envs with
  | nil => simp [nodesOf]
  | cons env rest ih =>
      cases h : env.tests.isSome <;>
        simp [nodesOf, h, List.filter_cons, isTestNode_testStepNode,
              not_isTestNode_deployStepNode, testStepNode_name, ih]

/-- No per-environment node is named `build`. -/
lemma nodesOf_filter_build (envs : List EnvironmentConfig) :
    (nodesOf envs).filter isBuildNode = [] := by
  induction envs with
  | nil => simp [nodesOf]
  | cons env rest ih =>
      cases h : env.tests.isSome <;>
        simp [nodesOf, h, List.filter_cons, not_isBuildNode_deployStepNode,
              not_isBuildNode_testStepNode, ih]

/-- No per-environment node is named `pipeline-deployment`. -/
lemma nodesOf_filter_pipeline (envs : List EnvironmentConfig) :
    (nodesOf envs).filter isPipelineNode = [] := by
  induction envs with
  | nil => simp [nodesOf]
  | cons env rest ih =>
      cases h : env.tests.isSome <;>
        simp [nodesOf, h, List.filter_cons, not_isPipelineNode_deployStepNode,
              not_isPipelineNode_testStepNode, ih]

/-- The flattened node list of the generated `main` steps. -/
lemma mainSteps_flatten (config : AphexConfig) :
    (mainSteps config).flatten
      = buildStepNode :: pipelineStepNode :: nodesOf config.environments := by
  rw [mainSteps_eq]
  simp [envGroups_flatten]

/-- The Deploy node names of the generated `main` steps, in order. -/
lemma mainSteps_deploy_names (config : AphexConfig) :
    ((mainSteps config).flatten.filter isDeployNode).map (fun n => n.name)
      = config.environments.map (fun e => "deploy-" ++ e.name) := by
  rw [mainSteps_flatten]
  simp [List.filter_cons, isDeployNode_buildStepNode,
        isDeployNode_pipelineStepNode, nodesOf_filter_deploy]

/-- The Test node names of the generated `main` steps, in order. -/
lemma mainSteps_test_names (config : AphexConfig) :
    ((mainSteps config).flatten.filter isTestNode).map (fun n => n.name)
      = (config.environments.filter (fun e => e.tests.isSome)).map
          (fun e => "test-" ++ e.name) := by
  rw [mainSteps_flatten]
  simp [List.filter_cons, isTestNode_buildStepNode,
        isTestNode_pipelineStepNode, nodesOf_filter_test]

/-- C1: for every configuration, the generated `main` steps are the
Build group, the Pipeline-Deployment group, then per environment in
configuration order one Deploy node named `deploy-<env.name>` followed
by a Test node `test-<env.name>` iff that environment declares tests;
consequently there is exactly one Build node, exactly one
Pipeline-Deployment node, as many Deploy nodes as environments, and as
many Test nodes as environments with tests. -/
theorem topology_emits_expected_nodes (config : AphexConfig) :
    mainSteps config
        = [[buildStepNode], [pipelineStepNode]] ++ envGroups config.environments
    ∧ ((mainSteps config).flatten.filter isBuildNode).length = 1
    ∧ ((mainSteps config).flatten.filter isPipelineNode).length = 1
    ∧ ((mainSteps config).flatten.filter isDeployNode).map (fun n => n.name)
        = config.environments.map (fun e => "deploy-" ++ e.name)
    ∧ ((mainSteps config).flatten.filter isTestNode).map (fun n => n.name)
        = (config.environments.filter (fun e => e.tests.isSome)).map
            (fun e => "test-" ++ e.name)
    ∧ ((mainSteps config).flatten.filter isDeployNode).length
        = config.environments.length
    ∧ ((mainSteps config).flatten.filter isTestNode).length
        = (config.environments.filter (fun e => e.tests.isSome)).length := by
  have hnodes := mainSteps_flatten config
  have hdep := mainSteps_deploy_names config
  have htst := mainSteps_test_names config
  have hdepLen := congrArg List.length hdep
  have htstLen := congrArg List.length htst
  rw [List.length_map, List.length_map] at hdepLen htstLen
  refine ⟨mainSteps_eq config, ?_, ?_, hdep, htst, hdepLen, htstLen⟩
  · rw [hnodes]
    simp [List.filter_cons, isBuildNode_buildStepNode,
          isBuildNode_pipelineStepNode, nodesOf_filter_build]
  · rw [hnodes]
    simp [List.filter_cons, isPipelineNode_buildStepNode,
          isPipelineNode_pipelineStepNode, nodesOf_filter_pipeline]

/-! ## Determinism and the internal bucket lookup (C6, C7) -/

/-- Model of `_get_artifact_bucket_name` always makes exactly one
`describe_stacks('AphexPipelineStack')` call. -/
lemma getArtifactBucketName_calls (cfn : CfnWorld) :
    (getArtifactBucketName cfn).2
      = [ExternalCall.describeStacks "AphexPipelineStack"] := by
  unfold getArtifactBucketName
  split
  · rfl
  · rfl
  · split <;> rfl

/-- With a loaded configuration, `generate_workflow_template` always
makes exactly one `describe_stacks('AphexPipelineStack')` call. -/
lemma generateWorkflowTemplate_calls (config : AphexConfig) (cfn : CfnWorld) :
    (generateWorkflowTemplate (some config) cfn).2
      = [ExternalCall.describeStacks "AphexPipelineStack"] := by
  have h := getArtifactBucketName_calls cfn
  unfold generateWorkflowTemplate
  cases e : getArtifactBucketName cfn with
  | mk r calls =>
      rw [e] at h
      cases r <;> simpa using h

/-- C6: topology generation is deterministic and idempotent — the same
configuration and CloudFormation world (hence the same artifact bucket
reference) yield structurally identical templates on repeated runs, and
the node ordering of the generated topology equals the configuration
list order. -/
theorem topology_generation_deterministic (config : AphexConfig)
    (cfn : CfnWorld) (bucket : String) :
    generateWorkflowTemplate (some config) cfn
        = generateWorkflowTemplate (some config) cfn
    ∧ buildWorkflowTemplate config bucket = buildWorkflowTemplate config bucket
    ∧ ((buildWorkflowTemplate config bucket).steps.flatten.filter
          isDeployNode).map (fun n => n.name)
        = config.environments.map (fun e => "deploy-" ++ e.name)
    ∧ ((buildWorkflowTemplate config bucket).steps.flatten.filter
          isTestNode).map (fun n => n.name)
        = (config.environments.filter (fun e => e.tests.isSome)).map
            (fun e => "test-" ++ e.name) := by
  refine ⟨rfl, rfl, ?_, ?_⟩
  · have hsteps : (buildWorkflowTemplate config bucket).steps = mainSteps config := rfl
    rw [hsteps]
    exact mainSteps_deploy_names config
  · have hsteps : (buildWorkflowTemplate config bucket).steps = mainSteps config := rfl
    rw [hsteps]
    exact mainSteps_test_names config

/-- A one-environment configuration used as a concrete input. -/
def exampleConfig : AphexConfig :=
  { version := "1.0"
    build := { commands := ["make build"] }
    environments :=
      [{ name := "alpha"
         region := "us-east-1"
         account := "111111111111"
         stacks' := [{ name := "stack-a", path := "." }]
         tests := none }] }

/-- A CloudFormation world whose pipeline stack exposes a bucket. -/
def exampleCfn : CfnWorld :=
  fun _ => .ok [[("ArtifactBucketName", "bucket-1")]]

/-- A second CloudFormation world exposing the same bucket among other
outputs. -/
def exampleCfn2 : CfnWorld :=
  fun _ => .ok [[("Other", "x"), ("ArtifactBucketName", "bucket-1")]]

/-- C7 counterexample: running `generate_workflow_template` on a
concrete configuration performs a CloudFormation `describe_stacks` call
— the artifact bucket reference is resolved internally by the generator,
not supplied by its caller, so the generator is not free of external
side effects. -/
theorem generator_not_pure_counterexample :
    (generateWorkflowTemplate (some exampleConfig) exampleCfn).2
        = [ExternalCall.describeStacks "AphexPipelineStack"]
    ∧ (generateWorkflowTemplate (some exampleConfig) exampleCfn).2 ≠ [] :=
  ⟨rfl, by decide⟩

/-- C7 amended: the core template builder `_build_workflow_template` is
a pure function of the configuration and the artifact bucket reference,
but the bucket reference is resolved internally by
`generate_workflow_template` through exactly one CloudFormation
describe-stacks lookup; two worlds resolving the same bucket give the
same template. -/
theorem template_builder_pure_bucket_resolved_internally
    (config : AphexConfig) (cfn cfn2 : CfnWorld) (bucket : String)
    (h1 : (getArtifactBucketName cfn).1 = .ok bucket)
    (h2 : (getArtifactBucketName cfn2).1 = .ok bucket) :
    (generateWorkflowTemplate (some config) cfn).2
        = [ExternalCall.describeStacks "AphexPipelineStack"]
    ∧ (generateWorkflowTemplate (some config) cfn).1
        = .ok (buildWorkflowTemplate config bucket)
    ∧ (generateWorkflowTemplate (some config) cfn).1
        = (generateWorkflowTemplate (some config) cfn2).1 := by
  have key : ∀ (w : CfnWorld), (getArtifactBucketName w).1 = .ok bucket →
      (generateWorkflowTemplate (some config) w).1
        = .ok (buildWorkflowTemplate config bucket) := by
    intro w hw
    unfold generateWorkflowTemplate
    cases e : getArtifactBucketName w with
    | mk r calls =>
        rw [e] at hw
        simp only at hw
        subst hw
        simp
  refine ⟨generateWorkflowTemplate_calls config cfn, key cfn h1, ?_⟩
  rw [key cfn h1, key cfn2 h2]

/-- Witness for the C7 amended theorem at concrete inputs. -/
theorem template_builder_pure_witness :
    (generateWorkflowTemplate (some exampleConfig) exampleCfn).1
      = (generateWorkflowTemplate (some exampleConfig) exampleCfn2).1 :=
  (template_builder_pure_bucket_resolved_internally exampleConfig
    exampleCfn exampleCfn2 "bucket-1" rfl rfl).2.2

/-! ## Cross-account resolver theorems (C5) -/

/-- Model of `assume_cross_account_role` makes exactly one role-assumption call,
with the deterministically constructed role ARN. -/
lemma assumeCrossAccountRole_calls (t r s : String) (sts : StsWorld) :
    (assumeCrossAccountRole t r s sts).2
      = [("arn:aws:iam::" ++ t ++ ":role/" ++ r, s)] := by
  cases h : sts ("arn:aws:iam::" ++ t ++ ":role/" ++ r) s <;>
    simp [assumeCrossAccountRole, h]

/-- Model of `assume_cross_account_role` yields the collaborator's credentials on
a successful call. -/
lemma assumeCrossAccountRole_ok (t r s : String) (sts : StsWorld)
    (creds : Credentials)
    (h : sts ("arn:aws:iam::" ++ t ++ ":role/" ++ r) s = .ok creds) :
    assumeCrossAccountRole t r s sts
      = (.ok creds, [("arn:aws:iam::" ++ t ++ ":role/" ++ r, s)]) := by
  simp [assumeCrossAccountRole, h]

/-- C5: when the current account equals the target environment account
the resolver performs no role-assumption call and sets no credential
environment variables; otherwise it performs exactly one call with role
ARN `arn:aws:iam::<target.account>:role/<role_name>` and, when the call
succeeds, yields the credentials triple and sets the three credential
environment variables. -/
theorem cross_account_resolver_correct (currentAccount roleName : String)
    (env : EnvironmentConfig) (sts : StsWorld) :
    (currentAccount = env.account →
      detectAndAssumeCrossAccountRole currentAccount env roleName sts
        = (.ok { assumedCredentials := none, envVarsSet := [] }, []))
    ∧ (currentAccount ≠ env.account →
        (detectAndAssumeCrossAccountRole currentAccount env roleName sts).2
          = [("arn:aws:iam::" ++ env.account ++ ":role/" ++ roleName,
              "AphexPipeline-" ++ env.name)]
        ∧ ∀ creds,
            sts ("arn:aws:iam::" ++ env.account ++ ":role/" ++ roleName)
                ("AphexPipeline-" ++ env.name) = .ok creds →
            (detectAndAssumeCrossAccountRole currentAccount env roleName sts).1
              = .ok { assumedCredentials := some creds
                      envVarsSet :=
                        [("AWS_ACCESS_KEY_ID", creds.accessKeyId),
                         ("AWS_SECRET_ACCESS_KEY", creds.secretAccessKey),
                         ("AWS_SESSION_TOKEN", creds.sessionToken)] }) := by
  constructor
  · intro h
    simp [detectAndAssumeCrossAccountRole, h]
  · intro h
    constructor
    · unfold detectAndAssumeCrossAccountRole
      rw [if_pos h]
      cases e : assumeCrossAccountRole env.account roleName
          ("AphexPipeline-" ++ env.name) sts with
      | mk res calls =>
          have hc := assumeCrossAccountRole_calls env.account roleName
            ("AphexPipeline-" ++ env.name) sts
          rw [e] at hc
          cases res <;> simpa using hc
    · intro creds hcreds
      unfold detectAndAssumeCrossAccountRole
      rw [if_pos h,
          assumeCrossAccountRole_ok env.account roleName
            ("AphexPipeline-" ++ env.name) sts creds hcreds]

/-- An environment in a different account, used as a concrete input. -/
def exampleEnvOther : EnvironmentConfig :=
  { name := "beta"
    region := "us-west-2"
    account := "222222222222"
    stacks' := [{ name := "stack-b", path := "." }]
    tests := none }

/-- An STS world that always grants the role. -/
def exampleSts : StsWorld :=
  fun _ _ => .ok { accessKeyId := "AKIA"
                   secretAccessKey := "SECRET"
                   sessionToken := "TOKEN" }

/-- Witness for C5 at concrete inputs: the same-account case makes no
call, and the cross-account case makes exactly one call with the
constructed role ARN. -/
theorem cross_account_resolver_witness :
    detectAndAssumeCrossAccountRole "222222222222" exampleEnvOther
        "AphexPipelineCrossAccountRole" exampleSts
      = (.ok { assumedCredentials := none, envVarsSet := [] }, [])
    ∧ (detectAndAssumeCrossAccountRole "111111111111" exampleEnvOther
        "AphexPipelineCrossAccountRole" exampleSts).2
      = [("arn:aws:iam::" ++ "222222222222" ++ ":role/"
            ++ "AphexPipelineCrossAccountRole",
          "AphexPipeline-" ++ "beta")] := by
  constructor
  · exact (cross_account_resolver_correct "222222222222"
      "AphexPipelineCrossAccountRole" exampleEnvOther exampleSts).1 rfl
  · exact ((cross_account_resolver_correct "111111111111"
      "AphexPipelineCrossAccountRole" exampleEnvOther exampleSts).2
      (by decide)).1

/-! ## Environment deployment at a concrete failing input (C2, C3)

Three stacks `[stack-a, stack-b, stack-c]` where `stack-b`'s
`cdk deploy` exits nonzero: the source's `deploy_stacks_in_order`
appends the failed result to its local list and then raises
`EnvironmentDeploymentError`, so `run`'s `except` branch returns
`self.stack_results` — still the empty list from `__init__`. -/

/-- A three-stack environment used as a concrete input. -/
def exampleEnvABC : EnvironmentConfig :=
  { name := "gamma"
    region := "us-east-1"
    account := "111111111111"
    stacks' := [{ name := "stack-a", path := "." },
                { name := "stack-b", path := "." },
                { name := "stack-c", path := "." }]
    tests := none }

/-- A deployment world in which only `stack-b`'s deploy fails. -/
def exampleDeployWorld : EnvDeployWorld :=
  { cloneError := none
    downloadError := none
    currentAccount := "111111111111"
    sts := fun _ _ => .clientError "AccessDenied" "denied"
    synthError := fun _ => none
    deployError := fun s => if s.name = "stack-b" then some "Exit code: 1" else none
    captureResp := fun _ => .found [] }

/-- C2: at the failing input, the environment deployment run returns an
`EnvironmentDeploymentResult` whose `stack_results` is empty (length 0,
not the 2 attempted stacks): `deploy_stacks_in_order` raises before
`run` can assign `self.stack_results`, discarding the partial results. -/
theorem envrun_discards_partial_results :
    ((envRun "sha1" exampleEnvABC none "AphexPipelineCrossAccountRole"
        exampleDeployWorld).1).stack_results = []
    ∧ ((envRun "sha1" exampleEnvABC none "AphexPipelineCrossAccountRole"
        exampleDeployWorld).1).stack_results.length ≠ 2
    ∧ (deployStacksInOrder exampleDeployWorld exampleEnvABC.stacks').1
        = .error "Stack deployment failed: stack-b. Halting deployment." := by
  refine ⟨rfl, by decide, rfl⟩

/-- C3: at the failing input the run is fail-fast — `stack-a` and
`stack-b` are attempted, `stack-c` never — but the returned result has
`status = "failed"` while containing no stack result at all (in
particular no failed one), so status `failed` does not coincide with
"some contained stack result is failed". -/
theorem envrun_failfast_status_mismatch :
    (envRun "sha1" exampleEnvABC none "AphexPipelineCrossAccountRole"
        exampleDeployWorld).2 = ["stack-a", "stack-b"]
    ∧ ((envRun "sha1" exampleEnvABC none "AphexPipelineCrossAccountRole"
        exampleDeployWorld).1).status = "failed"
    ∧ ((envRun "sha1" exampleEnvABC none "AphexPipelineCrossAccountRole"
        exampleDeployWorld).1).stack_results = [] := by
  refine ⟨rfl, rfl, rfl⟩

/-! ## Output capture totality (C10) -/

/-- Spec-side classifier: the `describe_stacks` responses that are not a
successful describe with outputs. -/
def isCaptureFailure : CaptureResponse → Bool
  | .found _ => false
  | .stacksEmpty => true
  | .noOutputs => true
  | .validationError => true
  | .otherClientError _ => true
  | .otherException _ => true

/-- C10: output capture is total and never downgrades a successful
deploy — every non-successful `describe_stacks` response yields the
empty output list, and a stack whose deploy succeeded always gets a
`StackDeploymentResult` with status `success` and no error message,
with empty outputs whenever capture failed. -/
theorem capture_never_downgrades_success (w : EnvDeployWorld)
    (stack : StackConfig) (h : w.deployError stack = none) :
    (∀ resp, isCaptureFailure resp = true → captureStackOutputs resp = [])
    ∧ (deployCdkStack w stack).status = "success"
    ∧ (deployCdkStack w stack).error_message = none
    ∧ (isCaptureFailure (w.captureResp stack.name) = true →
        (deployCdkStack w stack).outputs = []) := by
  refine ⟨?_, ?_, ?_, ?_⟩
  · intro resp hr
    cases resp <;> simp_all [isCaptureFailure, captureStackOutputs]
  · simp [deployCdkStack, h]
  · simp [deployCdkStack, h]
  · intro hr
    cases hc : w.captureResp stack.name <;>
      simp_all [deployCdkStack, h, isCaptureFailure, captureStackOutputs]

/-- A deployment world whose deploys succeed but whose output queries
fail with a `ValidationError`. -/
def exampleCaptureWorld : EnvDeployWorld :=
  { cloneError := none
    downloadError := none
    currentAccount := "111111111111"
    sts := fun _ _ => .clientError "AccessDenied" "denied"
    synthError := fun _ => none
    deployError := fun _ => none
    captureResp := fun _ => .validationError }

/-- Witness for C10 at a concrete input: the deploy succeeded, the
output query errored, and the result is still `success` with empty
outputs. -/
theorem capture_never_downgrades_success_witness :
    (deployCdkStack exampleCaptureWorld { name := "stack-a", path := "." }).status
        = "success"
    ∧ (deployCdkStack exampleCaptureWorld { name := "stack-a", path := "." }).outputs
        = [] := by
  have h := capture_never_downgrades_success exampleCaptureWorld
    { name := "stack-a", path := "." } rfl
  exact ⟨h.2.1, h.2.2.2 rfl⟩

/-! ## Test stage theorems (C4) -/

/-- The exit code a command outcome is recorded with (`-1` is the
synthetic marker for timeouts and execution errors). -/
def outcomeExit : CommandOutcome → Int
  | .completed e _ _ _ => e
  | .timedOut _ _ => -1
  | .execError _ _ => -1

/-- The stdout a command outcome is recorded with. -/
def outcomeStdout : CommandOutcome → String
  | .completed _ so _ _ => so
  | .timedOut p _ => p
  | .execError _ _ => ""

/-- The wall-clock duration a command outcome is recorded with. -/
def outcomeDuration : CommandOutcome → Nat
  | .completed _ _ _ d => d
  | .timedOut _ d => d
  | .execError _ d => d

lemma passed_ne_failed : ("passed" : String) ≠ "failed" := by decide

lemma executeTestCommand_command (c : String) (o : CommandOutcome) :
    (executeTestCommand c o).command = c := by cases o <;> rfl

lemma executeTestCommand_exit (c : String) (o : CommandOutcome) :
    (executeTestCommand c o).exit_code = outcomeExit o := by cases o <;> rfl

lemma executeTestCommand_stdout (c : String) (o : CommandOutcome) :
    (executeTestCommand c o).stdout = outcomeStdout o := by cases o <;> rfl

lemma executeTestCommand_duration (c : String) (o : CommandOutcome) :
    (executeTestCommand c o).duration_seconds = outcomeDuration o := by
  cases o <;> rfl

/-- A test command result is `failed` exactly when its recorded exit
code is nonzero. -/
lemma executeTestCommand_status_iff (c : String) (o : CommandOutcome) :
    ((executeTestCommand c o).status = "failed"
      ↔ (executeTestCommand c o).exit_code ≠ 0) := by
  cases o with
  | completed e so se d =>
      by_cases he : e = 0 <;> simp [executeTestCommand, he, passed_ne_failed]
  | timedOut p d => simp [executeTestCommand]
  | execError m d => simp [executeTestCommand]

lemma executeTestsFrom_length (w : ShellWorld) (k : Nat) (cmds : List String) :
    (executeTestsFrom w k cmds).length = cmds.length := by
  induction cmds generalizing k with
  | nil => rfl
  | cons c rest ih => simp [executeTestsFrom, ih]

lemma executeTestsFrom_map_command (w : ShellWorld) (k : Nat)
    (cmds : List String) :
    (executeTestsFrom w k cmds).map (fun r => r.command) = cmds := by
  induction cmds generalizing k with
  | nil => rfl
  | cons c rest ih => simp [executeTestsFrom, executeTestCommand_command, ih]

lemma executeTestsFrom_get (w : ShellWorld) (cmds : List String)
    (k i : Nat) (hi : i < (executeTestsFrom w k cmds).length)
    (hi' : i < cmds.length) :
    (executeTestsFrom w k cmds).get ⟨i, hi⟩
      = executeTestCommand (cmds.get ⟨i, hi'⟩) (w (k + i)) := by
  induction cmds generalizing k i with
  | nil => exact absurd hi' (by simp)
  | cons c rest ih =>
      cases i with
      | zero => rfl
      | succ n =>
          have hk : k + (n + 1) = (k + 1) + n := by omega
          have hn : n < (executeTestsFrom w (k + 1) rest).length := by
            simpa [executeTestsFrom] using hi
          have hn' : n < rest.length := by simpa using hi'
          show (executeTestsFrom w (k + 1) rest).get ⟨n, hn⟩
            = executeTestCommand (rest.get ⟨n, hn'⟩) (w (k + (n + 1)))
          rw [ih (k + 1) n hn hn', hk]

lemma executeTestsFrom_status_iff (w : ShellWorld) (k : Nat)
    (cmds : List String) :
    ∀ r ∈ executeTestsFrom w k cmds, (r.status = "failed" ↔ r.exit_code ≠ 0) := by
  induction cmds generalizing k with
  | nil => intro r hr; cases hr
  | cons c rest ih =>
      intro r hr
      rcases List.mem_cons.mp hr with h | h
      · subst h; exact executeTestCommand_status_iff c (w k)
      · exact ih (k + 1) r h

/-- Model of `execute_all_tests` is the indexed loop from position 0. -/
lemma executeAllTests_eq (cmds : List String) (w : ShellWorld) :
    executeAllTests cmds w = executeTestsFrom w 0 cmds := by
  cases cmds <;> rfl

/-- The aggregated status is `failed` exactly when some recorded result
is `failed`. -/
lemma aggregate_failed_iff (rs : List TestCommandResult) :
    (aggregateResults rs).1 = "failed" ↔ ∃ r ∈ rs, r.status = "failed" := by
  induction rs with
  | nil => simp [aggregateResults, passed_ne_failed]
  | cons r rest ih =>
      by_cases h : r.status = "failed" <;> simp [aggregateResults, h, ih]

/-- C4: every test command executes (the result list has one entry per
command, in order, each recording its own command string, exit code,
stdout, stderr and duration), and the persisted overall status is
`failed` iff some command exited nonzero. -/
theorem test_stage_exhaustive_and_recorded (cmds : List String)
    (envName sha ts : String) (w : ShellWorld) :
    (executeAllTests cmds w).length = cmds.length
    ∧ (executeAllTests cmds w).map (fun r => r.command) = cmds
    ∧ (∀ i (hi : i < (executeAllTests cmds w).length) (hi' : i < cmds.length),
        ((executeAllTests cmds w).get ⟨i, hi⟩).exit_code = outcomeExit (w i)
        ∧ ((executeAllTests cmds w).get ⟨i, hi⟩).stdout = outcomeStdout (w i)
        ∧ ((executeAllTests cmds w).get ⟨i, hi⟩).duration_seconds
            = outcomeDuration (w i)
        ∧ ∀ e so se d, w i = .completed e so se d →
            ((executeAllTests cmds w).get ⟨i, hi⟩).stderr = se)
    ∧ ((saveTestResults envName sha ts (executeAllTests cmds w)).overall_status
          = "failed"
        ↔ ∃ r ∈ executeAllTests cmds w, r.exit_code ≠ 0) := by
  have he := executeAllTests_eq cmds w
  refine ⟨?_, ?_, ?_, ?_⟩
  · rw [he]; exact executeTestsFrom_length w 0 cmds
  · rw [he]; exact executeTestsFrom_map_command w 0 cmds
  · intro i hi hi'
    have hg : (executeAllTests cmds w).get ⟨i, hi⟩
        = executeTestCommand (cmds.get ⟨i, hi'⟩) (w i) := by
      have hi2 : i < (executeTestsFrom w 0 cmds).length := by rw [← he]; exact hi
      have := executeTestsFrom_get w cmds 0 i hi2 hi'
      rw [Nat.zero_add] at this
      rw [List.get_of_eq he ⟨i, hi⟩]
      exact this
    refine ⟨?_, ?_, ?_, ?_⟩
    · rw [hg]; exact executeTestCommand_exit _ _
    · rw [hg]; exact executeTestCommand_stdout _ _
    · rw [hg]; exact executeTestCommand_duration _ _
    · intro e so se d hw
      rw [hg, hw]
      rfl
  · have hsave : (saveTestResults envName sha ts (executeAllTests cmds w)).overall_status
        = (aggregateResults (executeAllTests cmds w)).1 := rfl
    rw [hsave, aggregate_failed_iff]
    constructor
    · rintro ⟨r, hr, hst⟩
      refine ⟨r, hr, ?_⟩
      have hiff := executeTestsFrom_status_iff w 0 cmds r (by rw [← he]; exact hr)
      exact hiff.mp hst
    · rintro ⟨r, hr, hex⟩
      refine ⟨r, hr, ?_⟩
      have hiff := executeTestsFrom_status_iff w 0 cmds r (by rw [← he]; exact hr)
      exact hiff.mpr hex

/-- A shell world where only the second command (position 1) fails. -/
def exampleShell : ShellWorld :=
  fun i => if i = 1 then .completed 1 "" "boom" 2 else .completed 0 "fine" "" 1

/-- Witness for C4 at the `[ok, fail, ok3]` input: all three commands
execute and the persisted overall status is `failed`. -/
theorem test_stage_exhaustive_witness :
    (executeAllTests ["ok", "fail", "ok3"] exampleShell).length = 3
    ∧ (saveTestResults "beta" "sha1" "t0"
        (executeAllTests ["ok", "fail", "ok3"] exampleShell)).overall_status
      = "failed" := by
  have h := test_stage_exhaustive_and_recorded ["ok", "fail", "ok3"]
    "beta" "sha1" "t0" exampleShell
  exact ⟨h.1, h.2.2.2.mpr (by decide)⟩

/-! ## Empty command lists (C9) -/

/-- C9: with an empty command list (and a successful checkout) the Build
stage succeeds with zero executed commands and no error, and the Test
stage executes zero commands with overall status `passed`. -/
theorem empty_command_lists_trivially_succeed
    (sha ts dir envName ts2 : String) (w : BuildWorld) (w2 : ShellWorld)
    (h : w.cloneError = none) :
    buildRun sha ts dir [] none w
        = (.ok (createArtifactMetadata sha ts dir [] "success" none),
           some (createArtifactMetadata sha ts dir [] "success" none))
    ∧ (executeBuildCommands [] w).2 = []
    ∧ executeAllTests [] w2 = []
    ∧ (testRun [] envName sha ts2 w2).1.overall_status = "passed"
    ∧ (testRun [] envName sha ts2 w2).2
        = .ok { environment_name := envName
                commit_sha := sha
                timestamp := ts2
                test_results := []
                overall_status := "passed"
                total_duration_seconds := 0 } := by
  refine ⟨?_, rfl, rfl, ?_, ?_⟩
  · simp [buildRun, h, executeBuildCommands]
  · rfl
  · rfl

/-- A build world where everything succeeds. -/
def exampleBuildWorld : BuildWorld :=
  { cloneError := none
    cmdResult := fun _ => (0, "", "")
    uploadError := none }

/-- Witness for C9 at concrete inputs. -/
theorem empty_command_lists_witness :
    (buildRun "sha1" "t0" "/workspace/artifacts" [] none exampleBuildWorld).1
        = .ok (createArtifactMetadata "sha1" "t0" "/workspace/artifacts" []
                "success" none)
    ∧ (testRun [] "beta" "sha1" "t0" exampleShell).1.overall_status = "passed" := by
  have h := empty_command_lists_trivially_succeed "sha1" "t0"
    "/workspace/artifacts" "beta" "t0" exampleBuildWorld exampleShell rfl
  constructor
  · rw [h.1]
  · exact h.2.2.2.1

/-! ## Failure result documents (C8) -/

/-- Spec-side: the only place an `EnvironmentDeploymentResult` can carry
an error message is inside its stack results. -/
def envResultHasErrorMessage (r : EnvironmentDeploymentResult) : Prop :=
  ∃ sr ∈ r.stack_results, sr.error_message ≠ none

/-- C8 counterexample: at the concrete failing input the environment
deployment stage returns a result with `status = "failed"` that carries
no error message anywhere — its result type has no error field and its
`stack_results` list is empty. -/
theorem failed_stage_without_error_message_cex :
    ((envRun "sha1" exampleEnvABC none "AphexPipelineCrossAccountRole"
        exampleDeployWorld).1).status = "failed"
    ∧ ¬ envResultHasErrorMessage
        ((envRun "sha1" exampleEnvABC none "AphexPipelineCrossAccountRole"
            exampleDeployWorld).1) := by
  constructor
  · rfl
  · intro hmsg
    rcases hmsg with ⟨sr, hsr, _⟩
    have : ((envRun "sha1" exampleEnvABC none "AphexPipelineCrossAccountRole"
        exampleDeployWorld).1).stack_results = [] := rfl
    rw [this] at hsr
    cases hsr

/-- C8 amended: a failing Build run still persists a metadata document
with status `failed` and the error message; a failing Test run still
persists a result document with overall status `failed` before raising;
a failing Environment-Deploy run still returns a result with status
`failed` (but, per the counterexample, without an error message); the
Pipeline-Deployment stage produces no result document at all — its
failure surfaces only as a raised error. -/
theorem failing_stages_result_documents
    (sha ts dir : String) (cmds : List String) (bucket : Option String)
    (w : BuildWorld) (msg : String)
    (tcmds : List String) (envName ts2 : String) (w2 : ShellWorld)
    (commitSha : String) (env : EnvironmentConfig) (ap : Option String)
    (role : String) (w3 : EnvDeployWorld) (m3 : String)
    (pw : PipelineWorld) (flag : Bool) (m4 : String) :
    ((buildRun sha ts dir cmds bucket w).1 = .error msg →
      (buildRun sha ts dir cmds bucket w).2
        = some (createArtifactMetadata sha ts dir cmds "failed" (some msg)))
    ∧ ((∃ r ∈ executeAllTests tcmds w2, r.status = "failed") →
        (testRun tcmds envName sha ts2 w2).1.overall_status = "failed"
        ∧ ∃ m, (testRun tcmds envName sha ts2 w2).2 = .error m)
    ∧ (w3.cloneError = some m3 →
        (envRun commitSha env ap role w3).1.status = "failed")
    ∧ (pw.cloneError = some m4 →
        pipelineRun pw flag = .error ("Failed to clone repository: " ++ m4)) := by
  refine ⟨?_, ?_, ?_, ?_⟩
  · intro h
    unfold buildRun at h ⊢
    cases hc : w.cloneError with
    | some m =>
        simp only [hc, Except.error.injEq] at h
        simp only [hc]
        rw [← h]
    | none =>
        simp only [hc] at h ⊢
        cases hb : executeBuildCommands cmds w with
        | mk res executed =>
            simp only [hb] at h ⊢
            cases res with
            | error m2 =>
                simp only [Except.error.injEq] at h
                rw [← h]
            | ok u =>
                cases u
                cases hu : (if bucket.isSome then w.uploadError else none) with
                | some m3' =>
                    simp only [hu, Except.error.injEq] at h
                    simp only [hu]
                    rw [← h]
                | none =>
                    simp only [hu] at h
                    simp at h
  · rintro ⟨r, hr, hst⟩
    have hmem : r ∈ (executeAllTests tcmds w2).filter
        (fun r => r.status = "failed") :=
      List.mem_filter.mpr ⟨hr, by simp [hst]⟩
    have hlen : ((executeAllTests tcmds w2).filter
        (fun r => r.status = "failed")).length ≠ 0 := by
      intro h0
      rw [List.length_eq_zero] at h0
      rw [h0] at hmem
      cases hmem
    have htr : testRun tcmds envName sha ts2 w2
        = (saveTestResults envName sha ts2 (executeAllTests tcmds w2),
           .error (toString ((executeAllTests tcmds w2).filter
             (fun r => r.status = "failed")).length ++ " test(s) failed")) := by
      unfold testRun
      rw [if_pos hlen]
    rw [htr]
    exact ⟨(aggregate_failed_iff _).mpr ⟨r, hr, hst⟩, _, rfl⟩
  · intro h
    simp [envRun, h]
  · intro h
    simp [pipelineRun, h]

/-- A build world whose first command fails. -/
def exampleFailingBuildWorld : BuildWorld :=
  { cloneError := none
    cmdResult := fun _ => (1, "", "boom")
    uploadError := none }

/-- A pipeline world whose clone fails. -/
def exampleFailingPipelineWorld : PipelineWorld :=
  { cloneError := some "no such ref"
    synthError := none
    deployError := none
    configResult := .ok exampleConfig
    cfn := exampleCfn
    applyError := none }

/-- A deployment world whose clone fails. -/
def exampleFailingCloneWorld : EnvDeployWorld :=
  { exampleDeployWorld with cloneError := some "no such ref" }

/-- Witness for the C8 amended theorem at concrete failing inputs. -/
theorem failing_stages_result_documents_witness :
    (buildRun "sha1" "t0" "/workspace/artifacts" ["make"] none
        exampleFailingBuildWorld).2
      = some (createArtifactMetadata "sha1" "t0" "/workspace/artifacts"
          ["make"] "failed"
          (some ("Build command failed: make\nExit code: 1\nStdout: \nStderr: boom")))
    ∧ (testRun ["fail"] "beta" "sha1" "t0"
        (fun _ => .completed 1 "" "boom" 2)).1.overall_status = "failed"
    ∧ (envRun "sha1" exampleEnvABC none "AphexPipelineCrossAccountRole"
        exampleFailingCloneWorld).1.status = "failed"
    ∧ pipelineRun exampleFailingPipelineWorld true
        = .error ("Failed to clone repository: " ++ "no such ref") := by
  have h := failing_stages_result_documents "sha1" "t0" "/workspace/artifacts"
    ["make"] none exampleFailingBuildWorld
    "Build command failed: make\nExit code: 1\nStdout: \nStderr: boom"
    ["fail"] "beta" "t0" (fun _ => .completed 1 "" "boom" 2)
    "sha1" exampleEnvABC none "AphexPipelineCrossAccountRole"
    exampleFailingCloneWorld "no such ref"
    exampleFailingPipelineWorld true "no such ref"
  refine ⟨h.1 rfl, (h.2.1 (by decide)).1, h.2.2.1 rfl, h.2.2.2 rfl⟩

end Aphex
